import Mathlib

/-!
# Kubelet configuration upload

A shallow embedding of `internal/kubeadm/uploadconfig.go`: the derivation of the
version-scoped resource names (`configMapName`, `configMapRBACName`), the construction
of the hardened kubelet configuration document (`getKubeletConfigmapContent`) and its
publication together with the RBAC objects (`UploadKubeletConfig`,
`createConfigMapRBACRules`).

Conventions of the embedding:

* a Go `error` result is an `Option GoError`, `none` being `nil`;
* a Go multi-value return `(T, error)` is a pair `T × Option GoError`;
* the remote API server is explicit state: every client operation takes the state
  before the call and returns the state after it together with the `error`;
* functions and constants imported from other packages are fields of `Externals`;
* the upsert primitives of the imported package `apiclient` are an arbitrary `Client`
  where a statement holds for every behaviour, and the create-then-update primitives
  over a `Clientset` where a statement is about the errors they return.
-/

set_option linter.dupNamespace false

namespace kubeadm

/-- A Go `error` value: an error produced by a collaborator, or an error wrapped with a
message by `errors.Wrap` (which keeps the cause). -/
inductive GoError where
  | leaf (msg : String)
  | withMessage (cause : GoError) (msg : String)
  deriving DecidableEq, Repr

/-- The method `Error()` of an error; a wrapped error prints as `msg: cause`. -/
def GoError.Error : GoError → String
  | .leaf msg => msg
  | .withMessage cause msg => msg ++ ": " ++ cause.Error

/-- The function `errors.Cause`: the innermost error of a chain of wrapped errors. -/
def GoError.Cause : GoError → GoError
  | .leaf msg => .leaf msg
  | .withMessage cause _ => cause.Cause

/-- The function `errors.Wrap` of `github.com/pkg/errors`: `nil` stays `nil`, any other
error is annotated with the message. -/
def Wrap (err : Option GoError) (message : String) : Option GoError :=
  match err with
  | none => none
  | some e => some (.withMessage e message)

/-- The value `*version.Version` returned by `ParseSemantic`; `Major()` and `Minor()`
read the first two components. -/
structure Version where
  Major : Nat
  Minor : Nat
  Patch : Nat
  PreRelease : String
  BuildMetadata : String
  deriving DecidableEq, Repr

namespace metav1

/-- The fields of `metav1.TypeMeta`. -/
structure TypeMeta where
  Kind : String
  APIVersion : String
  deriving DecidableEq, Repr

/-- The fields of `metav1.ObjectMeta` that the module sets. -/
structure ObjectMeta where
  Name : String
  Namespace : String
  deriving DecidableEq, Repr

/-- The type `metav1.Duration`, in nanoseconds. -/
structure Duration where
  Duration : Int
  deriving DecidableEq, Repr

end metav1

namespace corev1

/-- The fields of `corev1.ConfigMap` that the module sets; `Data` lists the entries of the
Go map. -/
structure ConfigMap where
  ObjectMeta : metav1.ObjectMeta
  Data : List (String × String)
  deriving DecidableEq, Repr

end corev1

namespace rbacv1

/-- The fields of `rbacv1.PolicyRule` that the module sets. -/
structure PolicyRule where
  Verbs : List String
  APIGroups : List String
  Resources : List String
  ResourceNames : List String
  deriving DecidableEq, Repr

/-- The fields of `rbacv1.Role` that the module sets. -/
structure Role where
  ObjectMeta : metav1.ObjectMeta
  Rules : List PolicyRule
  deriving DecidableEq, Repr

/-- The type `rbacv1.RoleRef`. -/
structure RoleRef where
  APIGroup : String
  Kind : String
  Name : String
  deriving DecidableEq, Repr

/-- The fields of `rbacv1.Subject` that the module sets. -/
structure Subject where
  Kind : String
  Name : String
  deriving DecidableEq, Repr

/-- The fields of `rbacv1.RoleBinding` that the module sets. -/
structure RoleBinding where
  ObjectMeta : metav1.ObjectMeta
  RoleRef : RoleRef
  Subjects : List Subject
  deriving DecidableEq, Repr

end rbacv1

namespace kubelettypes

/-- The type `kubelettypes.KubeletAnonymousAuthentication`; `Enabled` is a `*bool`. -/
structure KubeletAnonymousAuthentication where
  Enabled : Option Bool
  deriving DecidableEq, Repr

/-- The type `kubelettypes.KubeletWebhookAuthentication`. -/
structure KubeletWebhookAuthentication where
  Enabled : Option Bool
  CacheTTL : metav1.Duration
  deriving DecidableEq, Repr

/-- The type `kubelettypes.KubeletX509Authentication`. -/
structure KubeletX509Authentication where
  ClientCAFile : String
  deriving DecidableEq, Repr

/-- The type `kubelettypes.KubeletAuthentication`. -/
structure KubeletAuthentication where
  Anonymous : KubeletAnonymousAuthentication
  Webhook : KubeletWebhookAuthentication
  X509 : KubeletX509Authentication
  deriving DecidableEq, Repr

/-- The type `kubelettypes.KubeletWebhookAuthorization`. -/
structure KubeletWebhookAuthorization where
  CacheAuthorizedTTL : metav1.Duration
  CacheUnauthorizedTTL : metav1.Duration
  deriving DecidableEq, Repr

/-- The type `kubelettypes.KubeletAuthorization`; the mode is a string. -/
structure KubeletAuthorization where
  Mode : String
  Webhook : KubeletWebhookAuthorization
  deriving DecidableEq, Repr

/-- The fields of `kubelettypes.KubeletConfiguration` that `getKubeletConfigmapContent`
sets, in the order of the source; every field it does not name keeps its zero value for
every input and is left out. `EvictionHard` lists the entries of the Go map. -/
structure KubeletConfiguration where
  TypeMeta : metav1.TypeMeta
  Authentication : KubeletAuthentication
  Authorization : KubeletAuthorization
  CgroupDriver : String
  ClusterDNS : List String
  ClusterDomain : String
  CPUManagerReconcilePeriod : metav1.Duration
  EvictionHard : List (String × String)
  EvictionPressureTransitionPeriod : metav1.Duration
  FileCheckFrequency : metav1.Duration
  HealthzBindAddress : String
  HealthzPort : Option Int
  HTTPCheckFrequency : metav1.Duration
  ImageGCHighThresholdPercent : Option Int
  NodeStatusUpdateFrequency : metav1.Duration
  NodeStatusReportFrequency : metav1.Duration
  RotateCertificates : Bool
  RuntimeRequestTimeout : metav1.Duration
  ShutdownGracePeriod : metav1.Duration
  ShutdownGracePeriodCriticalPods : metav1.Duration
  StaticPodPath : String
  StreamingConnectionIdleTimeout : metav1.Duration
  SyncFrequency : metav1.Duration
  VolumeStatsAggPeriod : metav1.Duration
  deriving DecidableEq, Repr

end kubelettypes

/-- The package-local type `KubeletConfiguration`: the three tenant-derived values. -/
structure KubeletConfiguration where
  TenantControlPlaneDomain : String
  TenantControlPlaneDNSServiceIPs : List String
  TenantControlPlaneCgroupDriver : String
  deriving DecidableEq, Repr

/-- The field `Networking` of the kubeadm init configuration, as far as it is read. -/
structure Networking where
  DNSDomain : String
  deriving DecidableEq, Repr

/-- The field `InitConfiguration` of `Configuration`, as far as it is read. -/
structure InitConfiguration where
  Networking : Networking
  deriving DecidableEq, Repr

/-- The field `Parameters` of `Configuration`, as far as it is read. -/
structure Parameters where
  TenantDNSServiceIPs : List String
  TenantControlPlaneCGroupDriver : String
  TenantControlPlaneVersion : String
  deriving DecidableEq, Repr

/-- The package-local type `Configuration`, as far as `UploadKubeletConfig` reads it. -/
structure Configuration where
  InitConfiguration : InitConfiguration
  Parameters : Parameters
  deriving DecidableEq, Repr

/-- What the file imports from other packages and calls or reads without defining it:
the version parser `k8sversion.ParseSemantic`, the serialiser `EncondeToYaml`, and the
named constants of `metav1`, `kubeadmconstants`, `rbac` and `kubelettypes`. Every
definition below takes them as the parameter `x`. -/
structure Externals where
  ParseSemantic : String → Except GoError Version
  EncondeToYaml : kubelettypes.KubeletConfiguration → String × Option GoError
  NamespaceSystem : String
  KubeletBaseConfigurationConfigMapKey : String
  KubeletBaseConfigurationConfigMap : String
  KubeletBaseConfigurationConfigMapPrefix : String
  KubeletBaseConfigMapRolePrefix : String
  NodesGroup : String
  NodeBootstrapTokenAuthGroup : String
  GroupName : String
  GroupKind : String
  KubeletAuthorizationModeWebhook : String

/-- The verb `%d` of `fmt.Sprintf` on an unsigned integer: its decimal digits. -/
def formatUint (n : Nat) : String :=
  Nat.repr n

/-- The number a list of decimal digits denotes, read from the most significant digit,
continuing from `acc`. -/
def decimalValue (acc : Nat) (cs : List Char) : Nat :=
  cs.foldl (fun a c => 10 * a + (c.toNat - 48)) acc

/-- Modelled from the spec: `kubeadmconstants.GetKubeletConfigMapName` belongs to the
imported kubeadm package and is not part of the source file. The spec gives the name for
the call the module makes (`legacy = true`): the fixed ConfigMap name stem followed by
`major.minor`. The other branch, which the module never takes, is the unversioned name. -/
def GetKubeletConfigMapName (x : Externals) (version : Version) (legacy : Bool) : String :=
  if legacy then
    x.KubeletBaseConfigurationConfigMapPrefix ++ formatUint version.Major ++ "."
      ++ formatUint version.Minor
  else
    x.KubeletBaseConfigurationConfigMap

/-- The function `configMapName`. -/
def configMapName (x : Externals) (kubernetesVersion : String) : String × Option GoError :=
  match x.ParseSemantic kubernetesVersion with
  | .error err => ("", some err)
  | .ok version => (GetKubeletConfigMapName x version true, none)

/-- The function `configMapRBACName`; the format is `"%s%d.%d"`. -/
def configMapRBACName (x : Externals) (kubernetesVersion : String) :
    String × Option GoError :=
  match x.ParseSemantic kubernetesVersion with
  | .error err => ("", some err)
  | .ok version =>
    (x.KubeletBaseConfigMapRolePrefix ++ formatUint version.Major ++ "."
      ++ formatUint version.Minor, none)

/-- The local `zeroDuration` of `getKubeletConfigmapContent`. -/
def zeroDuration : metav1.Duration :=
  { Duration := 0 }

/-- The struct literal `kc` of `getKubeletConfigmapContent`: the document before it is
serialised. -/
def kubeletConfigDocument (x : Externals) (kubeletConfiguration : KubeletConfiguration) :
    kubelettypes.KubeletConfiguration :=
  { TypeMeta := { Kind := "KubeletConfiguration", APIVersion := "kubelet.config.k8s.io/v1beta1" }
    Authentication :=
      { Anonymous := { Enabled := some false }
        Webhook := { Enabled := some true, CacheTTL := zeroDuration }
        X509 := { ClientCAFile := "/etc/kubernetes/pki/ca.crt" } }
    Authorization :=
      { Mode := x.KubeletAuthorizationModeWebhook
        Webhook :=
          { CacheAuthorizedTTL := zeroDuration, CacheUnauthorizedTTL := zeroDuration } }
    CgroupDriver := kubeletConfiguration.TenantControlPlaneCgroupDriver
    ClusterDNS := kubeletConfiguration.TenantControlPlaneDNSServiceIPs
    ClusterDomain := kubeletConfiguration.TenantControlPlaneDomain
    CPUManagerReconcilePeriod := zeroDuration
    EvictionHard :=
      [("imagefs.available", "0%"), ("nodefs.available", "0%"), ("nodefs.inodesFree", "0%")]
    EvictionPressureTransitionPeriod := zeroDuration
    FileCheckFrequency := zeroDuration
    HealthzBindAddress := "127.0.0.1"
    HealthzPort := some 10248
    HTTPCheckFrequency := zeroDuration
    ImageGCHighThresholdPercent := some 100
    NodeStatusUpdateFrequency := zeroDuration
    NodeStatusReportFrequency := zeroDuration
    RotateCertificates := true
    RuntimeRequestTimeout := zeroDuration
    ShutdownGracePeriod := zeroDuration
    ShutdownGracePeriodCriticalPods := zeroDuration
    StaticPodPath := "/etc/kubernetes/manifests"
    StreamingConnectionIdleTimeout := zeroDuration
    SyncFrequency := zeroDuration
    VolumeStatsAggPeriod := zeroDuration }

/-- The function `getKubeletConfigmapContent`: build the document and serialise it. -/
def getKubeletConfigmapContent (x : Externals) (kubeletConfiguration : KubeletConfiguration) :
    String × Option GoError :=
  x.EncondeToYaml (kubeletConfigDocument x kubeletConfiguration)

/-- The three upsert operations of `apiclient` on a client handle. The remote state is
the explicit `σ`: an operation maps the state before the call to the state after it and
the returned `error`. -/
structure Client (σ : Type) where
  CreateOrUpdateConfigMap : σ → corev1.ConfigMap → σ × Option GoError
  CreateOrUpdateRole : σ → rbacv1.Role → σ × Option GoError
  CreateOrUpdateRoleBinding : σ → rbacv1.RoleBinding → σ × Option GoError

/-- The function `createConfigMapRBACRules`. -/
def createConfigMapRBACRules {σ : Type} (x : Externals) (client : Client σ) (s : σ)
    (kubernetesVersion : String) : σ × Option GoError :=
  match configMapName x kubernetesVersion with
  | (_, some err) => (s, some err)
  | (cmName, none) =>
    match configMapRBACName x kubernetesVersion with
    | (_, some err) => (s, some err)
    | (rbacName, none) =>
      match client.CreateOrUpdateRole s
          { ObjectMeta := { Name := rbacName, Namespace := x.NamespaceSystem }
            Rules :=
              [{ Verbs := ["get"]
                 APIGroups := [""]
                 Resources := ["configmaps"]
                 ResourceNames := [cmName] }] } with
      | (s1, some err) => (s1, some err)
      | (s1, none) =>
        client.CreateOrUpdateRoleBinding s1
          { ObjectMeta := { Name := rbacName, Namespace := x.NamespaceSystem }
            RoleRef := { APIGroup := x.GroupName, Kind := "Role", Name := rbacName }
            Subjects :=
              [{ Kind := x.GroupKind, Name := x.NodesGroup },
               { Kind := x.GroupKind, Name := x.NodeBootstrapTokenAuthGroup }] }

/-- The message `UploadKubeletConfig` wraps a failure of `createConfigMapRBACRules`
with. -/
def rbacRulesMessage : String :=
  "error creating kubelet configuration configmap RBAC rules"

/-- The function `UploadKubeletConfig`. -/
def UploadKubeletConfig {σ : Type} (x : Externals) (client : Client σ) (s : σ)
    (config : Configuration) : σ × Option GoError :=
  let kubeletConfiguration : KubeletConfiguration :=
    { TenantControlPlaneDomain := config.InitConfiguration.Networking.DNSDomain
      TenantControlPlaneDNSServiceIPs := config.Parameters.TenantDNSServiceIPs
      TenantControlPlaneCgroupDriver := config.Parameters.TenantControlPlaneCGroupDriver }
  match getKubeletConfigmapContent x kubeletConfiguration with
  | (_, some err) => (s, some err)
  | (content, none) =>
    match configMapName x config.Parameters.TenantControlPlaneVersion with
    | (_, some err) => (s, some err)
    | (cmName, none) =>
      match client.CreateOrUpdateConfigMap s
          { ObjectMeta := { Name := cmName, Namespace := x.NamespaceSystem }
            Data := [(x.KubeletBaseConfigurationConfigMapKey, content)] } with
      | (s1, some err) => (s1, some err)
      | (s1, none) =>
        match createConfigMapRBACRules x client s1
            config.Parameters.TenantControlPlaneVersion with
        | (s2, some err) => (s2, Wrap (some err) rbacRulesMessage)
        | (s2, none) => (s2, none)

/-! ## The values `UploadKubeletConfig` builds, by name

The source writes these values inline; the definitions below name them so that
statements about the calls can refer to them. -/

/-- The local `kubeletConfiguration` of `UploadKubeletConfig`. -/
def tenantKubeletConfiguration (config : Configuration) : KubeletConfiguration :=
  { TenantControlPlaneDomain := config.InitConfiguration.Networking.DNSDomain
    TenantControlPlaneDNSServiceIPs := config.Parameters.TenantDNSServiceIPs
    TenantControlPlaneCgroupDriver := config.Parameters.TenantControlPlaneCGroupDriver }

/-- The local `configMap` of `UploadKubeletConfig`, for a name and a serialised document. -/
def configMapObject (x : Externals) (cmName content : String) : corev1.ConfigMap :=
  { ObjectMeta := { Name := cmName, Namespace := x.NamespaceSystem }
    Data := [(x.KubeletBaseConfigurationConfigMapKey, content)] }

/-- The Role literal of `createConfigMapRBACRules`, for the two names. -/
def roleObject (x : Externals) (rbacName cmName : String) : rbacv1.Role :=
  { ObjectMeta := { Name := rbacName, Namespace := x.NamespaceSystem }
    Rules :=
      [{ Verbs := ["get"]
         APIGroups := [""]
         Resources := ["configmaps"]
         ResourceNames := [cmName] }] }

/-- The RoleBinding literal of `createConfigMapRBACRules`, for the RBAC name. -/
def roleBindingObject (x : Externals) (rbacName : String) : rbacv1.RoleBinding :=
  { ObjectMeta := { Name := rbacName, Namespace := x.NamespaceSystem }
    RoleRef := { APIGroup := x.GroupName, Kind := "Role", Name := rbacName }
    Subjects :=
      [{ Kind := x.GroupKind, Name := x.NodesGroup },
       { Kind := x.GroupKind, Name := x.NodeBootstrapTokenAuthGroup }] }

/-! ## Observing the calls a client receives -/

/-- One upsert received by the API: the object sent and the `error` returned. -/
inductive Call where
  | configMap (obj : corev1.ConfigMap) (result : Option GoError)
  | role (obj : rbacv1.Role) (result : Option GoError)
  | roleBinding (obj : rbacv1.RoleBinding) (result : Option GoError)
  deriving DecidableEq, Repr

/-- The kind of object an upsert targets. -/
inductive Kind where
  | ConfigMap
  | Role
  | RoleBinding
  deriving DecidableEq, Repr

/-- The kind of a call. -/
def Call.kind : Call → Kind
  | .configMap _ _ => .ConfigMap
  | .role _ _ => .Role
  | .roleBinding _ _ => .RoleBinding

/-- The `error` a call returned. -/
def Call.result : Call → Option GoError
  | .configMap _ r => r
  | .role _ r => r
  | .roleBinding _ r => r

/-- The name of the object a call sent. -/
def Call.objectName : Call → String
  | .configMap obj _ => obj.ObjectMeta.Name
  | .role obj _ => obj.ObjectMeta.Name
  | .roleBinding obj _ => obj.ObjectMeta.Name

/-- A client that behaves as `client` and appends every upsert it receives, with its
outcome, to a log kept next to the state of `client`. -/
def traced {σ : Type} (client : Client σ) : Client (σ × List Call) where
  CreateOrUpdateConfigMap st obj :=
    let r := client.CreateOrUpdateConfigMap st.1 obj
    ((r.1, st.2 ++ [Call.configMap obj r.2]), r.2)
  CreateOrUpdateRole st obj :=
    let r := client.CreateOrUpdateRole st.1 obj
    ((r.1, st.2 ++ [Call.role obj r.2]), r.2)
  CreateOrUpdateRoleBinding st obj :=
    let r := client.CreateOrUpdateRoleBinding st.1 obj
    ((r.1, st.2 ++ [Call.roleBinding obj r.2]), r.2)

/-- The upserts `UploadKubeletConfig` attempts against `client` from state `s`, in
order, each with its outcome. -/
def attempts {σ : Type} (x : Externals) (client : Client σ) (s : σ)
    (config : Configuration) : List Call :=
  (UploadKubeletConfig x (traced client) (s, []) config).1.2

/-- A stateless stub of the upsert primitive: each operation returns the fixed outcome
given for its kind. -/
def stubClient (cm role rb : Option GoError) : Client Unit where
  CreateOrUpdateConfigMap _ _ := ((), cm)
  CreateOrUpdateRole _ _ := ((), role)
  CreateOrUpdateRoleBinding _ _ := ((), rb)

/-! ## The upsert primitives of `apiclient` over a clientset -/

/-- The two requests an upsert primitive sends. -/
inductive Verb where
  | Create
  | Update
  deriving DecidableEq, Repr

/-- The requests of the typed clientset that the upsert primitives use, each mapping the
remote state before the request to the state after it and the API's `error`, and the
classification `apierrors.IsAlreadyExists` of an error. -/
structure Clientset (σ : Type) where
  CreateConfigMap : σ → corev1.ConfigMap → σ × Option GoError
  UpdateConfigMap : σ → corev1.ConfigMap → σ × Option GoError
  CreateRole : σ → rbacv1.Role → σ × Option GoError
  UpdateRole : σ → rbacv1.Role → σ × Option GoError
  CreateRoleBinding : σ → rbacv1.RoleBinding → σ × Option GoError
  UpdateRoleBinding : σ → rbacv1.RoleBinding → σ × Option GoError
  IsAlreadyExists : GoError → Bool

/-- Modelled from the spec: the context an upsert primitive of the imported kubeadm
package `apiclient` (not part of the source file) wraps a failed request with. The spec
asks for context that identifies the step that failed; the texts are those of the
package, one per kind of object and request. -/
def upsertMessage : Kind → Verb → String
  | .ConfigMap, .Create => "unable to create ConfigMap"
  | .ConfigMap, .Update => "unable to update ConfigMap"
  | .Role, .Create => "unable to create RBAC role"
  | .Role, .Update => "unable to update RBAC role"
  | .RoleBinding, .Create => "unable to create RBAC rolebinding"
  | .RoleBinding, .Update => "unable to update RBAC rolebinding"

namespace apiclient

/-- Modelled from the spec: the body the three upsert primitives of the imported kubeadm
package `apiclient` share (the package is not part of the source file). The spec gives
the primitive as create if absent, else replace, a failure being returned wrapped around
its underlying cause with context for the step: the object is created; an error other
than already-exists is returned wrapped; on already-exists the object is updated and an
error of the update is returned wrapped. -/
def createOrUpdate {σ α : Type} (isAlreadyExists : GoError → Bool)
    (create update : σ → α → σ × Option GoError) (kind : Kind) (s : σ) (obj : α) :
    σ × Option GoError :=
  match create s obj with
  | (s1, none) => (s1, none)
  | (s1, some err) =>
    if !isAlreadyExists err then (s1, Wrap (some err) (upsertMessage kind .Create))
    else
      match update s1 obj with
      | (s2, none) => (s2, none)
      | (s2, some err) => (s2, Wrap (some err) (upsertMessage kind .Update))

/-- Modelled from the spec: `apiclient.CreateOrUpdateConfigMap`, see `createOrUpdate`. -/
def CreateOrUpdateConfigMap {σ : Type} (cs : Clientset σ) (s : σ) (cm : corev1.ConfigMap) :
    σ × Option GoError :=
  createOrUpdate cs.IsAlreadyExists cs.CreateConfigMap cs.UpdateConfigMap .ConfigMap s cm

/-- Modelled from the spec: `apiclient.CreateOrUpdateRole`, see `createOrUpdate`. -/
def CreateOrUpdateRole {σ : Type} (cs : Clientset σ) (s : σ) (role : rbacv1.Role) :
    σ × Option GoError :=
  createOrUpdate cs.IsAlreadyExists cs.CreateRole cs.UpdateRole .Role s role

/-- Modelled from the spec: `apiclient.CreateOrUpdateRoleBinding`, see `createOrUpdate`. -/
def CreateOrUpdateRoleBinding {σ : Type} (cs : Clientset σ) (s : σ)
    (roleBinding : rbacv1.RoleBinding) : σ × Option GoError :=
  createOrUpdate cs.IsAlreadyExists cs.CreateRoleBinding cs.UpdateRoleBinding .RoleBinding s
    roleBinding

/-- The client `UploadKubeletConfig` runs against: the three primitives over `cs`. -/
def client {σ : Type} (cs : Clientset σ) : Client σ where
  CreateOrUpdateConfigMap := CreateOrUpdateConfigMap cs
  CreateOrUpdateRole := CreateOrUpdateRole cs
  CreateOrUpdateRoleBinding := CreateOrUpdateRoleBinding cs

end apiclient

/-- One request received by the API: the kind of object, the request and the `error`
the API returned. -/
structure Request where
  kind : Kind
  verb : Verb
  result : Option GoError
  deriving DecidableEq, Repr

/-- A request that behaves as `op` and appends itself, with its outcome, to a log kept
next to the state. -/
def logged {σ α : Type} (kind : Kind) (verb : Verb) (op : σ → α → σ × Option GoError)
    (st : σ × List Request) (obj : α) : (σ × List Request) × Option GoError :=
  (((op st.1 obj).1, st.2 ++ [{ kind := kind, verb := verb, result := (op st.1 obj).2 }]),
    (op st.1 obj).2)

/-- A clientset that behaves as `cs` and logs every request it receives. -/
def loggedClientset {σ : Type} (cs : Clientset σ) : Clientset (σ × List Request) where
  CreateConfigMap := logged .ConfigMap .Create cs.CreateConfigMap
  UpdateConfigMap := logged .ConfigMap .Update cs.UpdateConfigMap
  CreateRole := logged .Role .Create cs.CreateRole
  UpdateRole := logged .Role .Update cs.UpdateRole
  CreateRoleBinding := logged .RoleBinding .Create cs.CreateRoleBinding
  UpdateRoleBinding := logged .RoleBinding .Update cs.UpdateRoleBinding
  IsAlreadyExists := cs.IsAlreadyExists

/-- The requests `UploadKubeletConfig` makes the primitives send to `cs` from state `s`,
in order, each with the API's outcome. -/
def requests {σ : Type} (x : Externals) (cs : Clientset σ) (s : σ)
    (config : Configuration) : List Request :=
  (UploadKubeletConfig x (apiclient.client (loggedClientset cs)) (s, []) config).1.2

/-- A stateless stub of the API: creating an object of kind `failing` returns `cause`,
every other request succeeds, and no error means already-exists. -/
def stubClientset (failing : Kind) (cause : GoError) : Clientset Unit where
  CreateConfigMap _ _ := ((), if failing = .ConfigMap then some cause else none)
  UpdateConfigMap _ _ := ((), none)
  CreateRole _ _ := ((), if failing = .Role then some cause else none)
  UpdateRole _ _ := ((), none)
  CreateRoleBinding _ _ := ((), if failing = .RoleBinding then some cause else none)
  UpdateRoleBinding _ _ := ((), none)
  IsAlreadyExists _ := false

/-! ## The API server as a store with full-replace upserts -/

/-- The remote state: the objects of each kind, by namespace and name. -/
structure Cluster where
  configMaps : String → String → Option corev1.ConfigMap
  roles : String → String → Option rbacv1.Role
  roleBindings : String → String → Option rbacv1.RoleBinding

/-- The empty cluster. -/
def Cluster.empty : Cluster :=
  { configMaps := fun _ _ => none, roles := fun _ _ => none, roleBindings := fun _ _ => none }

/-- Store `v` under `(ns, name)`, whether or not something was stored there. -/
def put {α : Type} (m : String → String → Option α) (ns name : String) (v : α) :
    String → String → Option α :=
  fun ns' name' => if ns' = ns ∧ name' = name then some v else m ns' name'

/-- The upsert primitive as a full replace that succeeds: create the named object if it
is absent, else overwrite it with the object given. -/
def replaceClient : Client Cluster where
  CreateOrUpdateConfigMap st obj :=
    ({ st with configMaps := put st.configMaps obj.ObjectMeta.Namespace obj.ObjectMeta.Name obj },
      none)
  CreateOrUpdateRole st obj :=
    ({ st with roles := put st.roles obj.ObjectMeta.Namespace obj.ObjectMeta.Name obj }, none)
  CreateOrUpdateRoleBinding st obj :=
    ({ st with
        roleBindings := put st.roleBindings obj.ObjectMeta.Namespace obj.ObjectMeta.Name obj },
      none)

/-! ## A concrete environment -/

/-- Split a list of characters at every `.`. -/
def splitDots : List Char → List (List Char)
  | [] => [[]]
  | c :: cs =>
    match splitDots cs with
    | [] => [[c]]
    | w :: ws => if c = '.' then [] :: w :: ws else (c :: w) :: ws

/-- Read a non-empty list of decimal digits without a leading zero (other than `0`). -/
def readUint (cs : List Char) : Option Nat :=
  if cs = [] then none
  else if cs.all Char.isDigit ∧ (cs.head? ≠ some '0' ∨ cs.length = 1) then
    some (decimalValue 0 cs)
  else none

/-- A strict parser for `MAJOR.MINOR.PATCH`, used as a concrete instance of the version
parser: it accepts three dot-separated decimal numbers and nothing else. -/
def parseThreeNumbers (s : String) : Except GoError Version :=
  match (splitDots s.data).map readUint with
  | [some major, some minor, some patch] =>
    .ok { Major := major, Minor := minor, Patch := patch, PreRelease := "", BuildMetadata := "" }
  | _ => .error (.leaf ("could not parse \"" ++ s ++ "\" as version"))

/-- A serialiser used as a concrete instance of `EncondeToYaml`: it prints the three
tenant-derived fields and never fails. -/
def encodeTenantFields (kc : kubelettypes.KubeletConfiguration) : String × Option GoError :=
  ("cgroupDriver: " ++ kc.CgroupDriver ++ "\nclusterDNS: " ++ ", ".intercalate kc.ClusterDNS
    ++ "\nclusterDomain: " ++ kc.ClusterDomain ++ "\n", none)

/-- A concrete environment: the two instances above and the values the imported
constants have upstream. -/
def sampleExternals : Externals :=
  { ParseSemantic := parseThreeNumbers
    EncondeToYaml := encodeTenantFields
    NamespaceSystem := "kube-system"
    KubeletBaseConfigurationConfigMapKey := "kubelet"
    KubeletBaseConfigurationConfigMap := "kubelet-config"
    KubeletBaseConfigurationConfigMapPrefix := "kubelet-config-"
    KubeletBaseConfigMapRolePrefix := "kubeadm:kubelet-config-"
    NodesGroup := "system:nodes"
    NodeBootstrapTokenAuthGroup := "system:bootstrappers:kubeadm:default-node-token"
    GroupName := "rbac.authorization.k8s.io"
    GroupKind := "Group"
    KubeletAuthorizationModeWebhook := "Webhook" }

/-- An error of the remote API, used as the cause of a failed upsert. -/
def requestTimedOut : GoError :=
  .leaf "etcdserver: request timed out"

/-- The end-to-end scenario of the specification. -/
def sampleConfiguration : Configuration :=
  { InitConfiguration := { Networking := { DNSDomain := "cluster.local" } }
    Parameters :=
      { TenantDNSServiceIPs := ["10.96.0.10"]
        TenantControlPlaneCGroupDriver := "systemd"
        TenantControlPlaneVersion := "1.28.2" } }

/-- The scenario with a version that is not a semantic version. -/
def unparsableConfiguration : Configuration :=
  { sampleConfiguration with
    Parameters := { sampleConfiguration.Parameters with TenantControlPlaneVersion := "latest" } }

/-! ## The decimal rendering -/

theorem digitChar_ne_dot (k : Nat) : Nat.digitChar k ≠ '.' := by
  by_cases hk : k < 16
  · interval_cases k <;> decide
  · unfold Nat.digitChar
    repeat rw [if_neg (by omega)]
    decide

theorem digitChar_value {k : Nat} (hk : k < 10) : (Nat.digitChar k).toNat - 48 = k := by
  interval_cases k <;> rfl

theorem toDigitsCore_no_dot (fuel : Nat) : ∀ (n : Nat) (ds : List Char),
    (∀ c ∈ ds, c ≠ '.') → ∀ c ∈ Nat.toDigitsCore 10 fuel n ds, c ≠ '.' := by
  induction fuel with
  | zero => intro n ds h; simpa [Nat.toDigitsCore] using h
  | succ fuel ih =>
    intro n ds h
    have hcons : ∀ c ∈ Nat.digitChar (n % 10) :: ds, c ≠ '.' := by
      intro c hc
      rcases List.mem_cons.mp hc with rfl | hc
      · exact digitChar_ne_dot _
      · exact h c hc
    simp only [Nat.toDigitsCore]
    split_ifs
    · exact hcons
    · exact ih _ _ hcons

theorem toDigitsCore_value (fuel : Nat) : ∀ (n : Nat) (ds : List Char), n < fuel →
    decimalValue 0 (Nat.toDigitsCore 10 fuel n ds) = decimalValue n ds := by
  induction fuel with
  | zero => intro n ds h; omega
  | succ fuel ih =>
    intro n ds h
    have hd : (Nat.digitChar (n % 10)).toNat - 48 = n % 10 :=
      digitChar_value (Nat.mod_lt _ (by decide))
    simp only [Nat.toDigitsCore]
    split_ifs with h0
    · have hn : n % 10 = n := by omega
      simp only [decimalValue, List.foldl_cons, Nat.mul_zero, Nat.zero_add, hd]
      rw [hn]
    · rw [ih _ _ (by omega)]
      have hn : 10 * (n / 10) + n % 10 = n := Nat.div_add_mod n 10
      simp [decimalValue, hd, hn]

theorem formatUint_value (n : Nat) : decimalValue 0 (formatUint n).data = n := by
  simp only [formatUint, Nat.repr, Nat.toDigits, List.asString]
  rw [toDigitsCore_value _ _ _ (Nat.lt_succ_self n)]
  rfl

theorem formatUint_injective {a b : Nat} (h : formatUint a = formatUint b) : a = b := by
  have := congrArg (fun s => decimalValue 0 s.data) h
  simpa [formatUint_value] using this

theorem formatUint_no_dot (n : Nat) : ∀ c ∈ (formatUint n).data, c ≠ '.' := by
  simp only [formatUint, Nat.repr, Nat.toDigits, List.asString]
  exact toDigitsCore_no_dot _ _ _ (by simp)

/-- Two lists that agree after a `.` which neither has before it agree on both sides of
the `.`. -/
theorem split_at_dot : ∀ (a a' b b' : List Char), (∀ c ∈ a, c ≠ '.') → (∀ c ∈ a', c ≠ '.') →
    a ++ '.' :: b = a' ++ '.' :: b' → a = a' ∧ b = b' := by
  intro a
  induction a with
  | nil =>
    intro a' b b' _ ha' h
    cases a' with
    | nil => simpa using h
    | cons c cs =>
      simp only [List.nil_append, List.cons_append, List.cons.injEq] at h
      exact absurd h.1.symm (ha' c (List.mem_cons_self _ _))
  | cons c cs ih =>
    intro a' b b' ha ha' h
    cases a' with
    | nil =>
      simp only [List.nil_append, List.cons_append, List.cons.injEq] at h
      exact absurd h.1 (ha c (List.mem_cons_self _ _))
    | cons c' cs' =>
      simp only [List.cons_append, List.cons.injEq] at h
      obtain ⟨h1, h2⟩ := ih cs' b b' (fun d hd => ha d (List.mem_cons_of_mem _ hd))
        (fun d hd => ha' d (List.mem_cons_of_mem _ hd)) h.2
      exact ⟨by rw [h.1, h1], h2⟩

/-- The rendering `stem ++ major ++ "." ++ minor` determines the pair. -/
theorem versioned_name_injective (stem : String) {a b a' b' : Nat}
    (h : stem ++ formatUint a ++ "." ++ formatUint b
      = stem ++ formatUint a' ++ "." ++ formatUint b') : a = a' ∧ b = b' := by
  have hd := congrArg String.data h
  simp only [String.data_append, List.append_assoc, List.append_cancel_left_eq] at hd
  have := split_at_dot _ _ _ _ (formatUint_no_dot a) (formatUint_no_dot a') hd
  exact ⟨formatUint_injective (String.ext this.1), formatUint_injective (String.ext this.2)⟩

/-! ## The paths through `UploadKubeletConfig` -/

/-- Serialisation fails: the error is returned and the state is untouched. -/
theorem upload_of_encode_error {σ : Type} (x : Externals) (client : Client σ) (s : σ)
    (config : Configuration) (content : String) (e : GoError)
    (henc : getKubeletConfigmapContent x (tenantKubeletConfiguration config)
      = (content, some e)) :
    UploadKubeletConfig x client s config = (s, some e) := by
  simp only [tenantKubeletConfiguration] at henc
  simp only [UploadKubeletConfig, henc]

/-- The version does not parse: the parser's error is returned and the state is
untouched. -/
theorem upload_of_parse_error {σ : Type} (x : Externals) (client : Client σ) (s : σ)
    (config : Configuration) (content : String) (e : GoError)
    (henc : getKubeletConfigmapContent x (tenantKubeletConfiguration config) = (content, none))
    (hp : x.ParseSemantic config.Parameters.TenantControlPlaneVersion = .error e) :
    UploadKubeletConfig x client s config = (s, some e) := by
  simp only [tenantKubeletConfiguration] at henc
  simp only [UploadKubeletConfig, henc, configMapName, hp]

/-- The ConfigMap upsert fails: its error is returned as it is. -/
theorem upload_of_configMap_error {σ : Type} (x : Externals) (client : Client σ) (s s1 : σ)
    (config : Configuration) (content : String) (v : Version) (e : GoError)
    (henc : getKubeletConfigmapContent x (tenantKubeletConfiguration config) = (content, none))
    (hp : x.ParseSemantic config.Parameters.TenantControlPlaneVersion = .ok v)
    (hcm : client.CreateOrUpdateConfigMap s
      (configMapObject x (GetKubeletConfigMapName x v true) content) = (s1, some e)) :
    UploadKubeletConfig x client s config = (s1, some e) := by
  simp only [tenantKubeletConfiguration] at henc
  simp only [configMapObject] at hcm
  simp only [UploadKubeletConfig, henc, configMapName, hp, hcm]

/-- The Role upsert fails: its error is returned wrapped with the RBAC message. -/
theorem upload_of_role_error {σ : Type} (x : Externals) (client : Client σ) (s s1 s2 : σ)
    (config : Configuration) (content : String) (v : Version) (e : GoError)
    (henc : getKubeletConfigmapContent x (tenantKubeletConfiguration config) = (content, none))
    (hp : x.ParseSemantic config.Parameters.TenantControlPlaneVersion = .ok v)
    (hcm : client.CreateOrUpdateConfigMap s
      (configMapObject x (GetKubeletConfigMapName x v true) content) = (s1, none))
    (hr : client.CreateOrUpdateRole s1
      (roleObject x (configMapRBACName x config.Parameters.TenantControlPlaneVersion).1
        (GetKubeletConfigMapName x v true)) = (s2, some e)) :
    UploadKubeletConfig x client s config = (s2, some (.withMessage e rbacRulesMessage)) := by
  simp only [tenantKubeletConfiguration] at henc
  simp only [configMapObject] at hcm
  simp only [roleObject, configMapRBACName, hp] at hr
  simp only [UploadKubeletConfig, createConfigMapRBACRules, henc, configMapName,
    configMapRBACName, hp, hcm, hr, Wrap]

/-- The ConfigMap and Role upserts succeed: the result is that of the RoleBinding upsert,
wrapped with the RBAC message when it is an error. -/
theorem upload_of_roleBinding {σ : Type} (x : Externals) (client : Client σ) (s s1 s2 s3 : σ)
    (config : Configuration) (content : String) (v : Version) (r : Option GoError)
    (henc : getKubeletConfigmapContent x (tenantKubeletConfiguration config) = (content, none))
    (hp : x.ParseSemantic config.Parameters.TenantControlPlaneVersion = .ok v)
    (hcm : client.CreateOrUpdateConfigMap s
      (configMapObject x (GetKubeletConfigMapName x v true) content) = (s1, none))
    (hr : client.CreateOrUpdateRole s1
      (roleObject x (configMapRBACName x config.Parameters.TenantControlPlaneVersion).1
        (GetKubeletConfigMapName x v true)) = (s2, none))
    (hrb : client.CreateOrUpdateRoleBinding s2
      (roleBindingObject x (configMapRBACName x config.Parameters.TenantControlPlaneVersion).1)
        = (s3, r)) :
    UploadKubeletConfig x client s config = (s3, Wrap r rbacRulesMessage) := by
  simp only [tenantKubeletConfiguration] at henc
  simp only [configMapObject] at hcm
  simp only [roleObject, configMapRBACName, hp] at hr
  simp only [roleBindingObject, configMapRBACName, hp] at hrb
  cases r <;>
  simp only [UploadKubeletConfig, createConfigMapRBACRules, henc, configMapName,
    configMapRBACName, hp, hcm, hr, hrb, Wrap]

/-- Every run of `UploadKubeletConfig` follows one of five paths; each fixes the result,
the final state and the upserts attempted. -/
theorem upload_paths {σ : Type} (x : Externals) (client : Client σ) (s : σ)
    (config : Configuration) :
    (∃ content e,
      getKubeletConfigmapContent x (tenantKubeletConfiguration config) = (content, some e) ∧
      UploadKubeletConfig x client s config = (s, some e) ∧
      attempts x client s config = []) ∨
    (∃ content e,
      getKubeletConfigmapContent x (tenantKubeletConfiguration config) = (content, none) ∧
      x.ParseSemantic config.Parameters.TenantControlPlaneVersion = .error e ∧
      UploadKubeletConfig x client s config = (s, some e) ∧
      attempts x client s config = []) ∨
    (∃ content v, ∃ s1 : σ, ∃ e,
      getKubeletConfigmapContent x (tenantKubeletConfiguration config) = (content, none) ∧
      x.ParseSemantic config.Parameters.TenantControlPlaneVersion = .ok v ∧
      client.CreateOrUpdateConfigMap s
        (configMapObject x (GetKubeletConfigMapName x v true) content) = (s1, some e) ∧
      UploadKubeletConfig x client s config = (s1, some e) ∧
      attempts x client s config =
        [Call.configMap (configMapObject x (GetKubeletConfigMapName x v true) content)
          (some e)]) ∨
    (∃ content v, ∃ s1 s2 : σ, ∃ e,
      getKubeletConfigmapContent x (tenantKubeletConfiguration config) = (content, none) ∧
      x.ParseSemantic config.Parameters.TenantControlPlaneVersion = .ok v ∧
      client.CreateOrUpdateConfigMap s
        (configMapObject x (GetKubeletConfigMapName x v true) content) = (s1, none) ∧
      client.CreateOrUpdateRole s1
        (roleObject x (configMapRBACName x config.Parameters.TenantControlPlaneVersion).1
          (GetKubeletConfigMapName x v true)) = (s2, some e) ∧
      UploadKubeletConfig x client s config = (s2, some (.withMessage e rbacRulesMessage)) ∧
      attempts x client s config =
        [Call.configMap (configMapObject x (GetKubeletConfigMapName x v true) content) none,
         Call.role
          (roleObject x (configMapRBACName x config.Parameters.TenantControlPlaneVersion).1
            (GetKubeletConfigMapName x v true)) (some e)]) ∨
    (∃ content v, ∃ s1 s2 s3 : σ, ∃ r,
      getKubeletConfigmapContent x (tenantKubeletConfiguration config) = (content, none) ∧
      x.ParseSemantic config.Parameters.TenantControlPlaneVersion = .ok v ∧
      client.CreateOrUpdateConfigMap s
        (configMapObject x (GetKubeletConfigMapName x v true) content) = (s1, none) ∧
      client.CreateOrUpdateRole s1
        (roleObject x (configMapRBACName x config.Parameters.TenantControlPlaneVersion).1
          (GetKubeletConfigMapName x v true)) = (s2, none) ∧
      client.CreateOrUpdateRoleBinding s2
        (roleBindingObject x
          (configMapRBACName x config.Parameters.TenantControlPlaneVersion).1) = (s3, r) ∧
      UploadKubeletConfig x client s config = (s3, Wrap r rbacRulesMessage) ∧
      attempts x client s config =
        [Call.configMap (configMapObject x (GetKubeletConfigMapName x v true) content) none,
         Call.role
          (roleObject x (configMapRBACName x config.Parameters.TenantControlPlaneVersion).1
            (GetKubeletConfigMapName x v true)) none,
         Call.roleBinding
          (roleBindingObject x
            (configMapRBACName x config.Parameters.TenantControlPlaneVersion).1) r]) := by
  rcases henc : getKubeletConfigmapContent x (tenantKubeletConfiguration config) with
    ⟨content, _ | e⟩
  swap
  · refine Or.inl ⟨content, e, rfl, upload_of_encode_error x client s config content e henc, ?_⟩
    simp only [attempts, upload_of_encode_error x (traced client) (s, []) config content e henc]
  refine Or.inr ?_
  cases hp : x.ParseSemantic config.Parameters.TenantControlPlaneVersion with
  | error e =>
    refine Or.inl ⟨content, e, rfl, rfl, upload_of_parse_error x client s config content e henc hp, ?_⟩
    simp only [attempts, upload_of_parse_error x (traced client) (s, []) config content e henc hp]
  | ok v =>
    refine Or.inr ?_
    rcases hcm : client.CreateOrUpdateConfigMap s
      (configMapObject x (GetKubeletConfigMapName x v true) content) with ⟨s1, _ | e⟩
    swap
    · refine Or.inl ⟨content, v, s1, e, rfl, rfl, hcm,
        upload_of_configMap_error x client s s1 config content v e henc hp hcm, ?_⟩
      have ht : (traced client).CreateOrUpdateConfigMap (s, [])
          (configMapObject x (GetKubeletConfigMapName x v true) content)
          = ((s1, [Call.configMap (configMapObject x (GetKubeletConfigMapName x v true) content)
              (some e)]), some e) := by
        simp [traced, hcm]
      simp only [attempts, upload_of_configMap_error x (traced client) (s, []) _ config content
        v e henc hp ht]
    refine Or.inr ?_
    have htcm : (traced client).CreateOrUpdateConfigMap (s, [])
        (configMapObject x (GetKubeletConfigMapName x v true) content)
        = ((s1, [Call.configMap (configMapObject x (GetKubeletConfigMapName x v true) content)
            none]), none) := by
      simp [traced, hcm]
    rcases hr : client.CreateOrUpdateRole s1
      (roleObject x (configMapRBACName x config.Parameters.TenantControlPlaneVersion).1
        (GetKubeletConfigMapName x v true)) with ⟨s2, _ | e⟩
    swap
    · refine Or.inl ⟨content, v, s1, s2, e, rfl, rfl, hcm, hr,
        upload_of_role_error x client s s1 s2 config content v e henc hp hcm hr, ?_⟩
      have ht := upload_of_role_error x (traced client) (s, []) _
        (s2, [Call.configMap (configMapObject x (GetKubeletConfigMapName x v true) content) none,
          Call.role
            (roleObject x (configMapRBACName x config.Parameters.TenantControlPlaneVersion).1
              (GetKubeletConfigMapName x v true)) (some e)])
        config content v e henc hp htcm (by simp [traced, hr])
      simp only [attempts, ht]
    refine Or.inr ?_
    rcases hrb : client.CreateOrUpdateRoleBinding s2
      (roleBindingObject x
        (configMapRBACName x config.Parameters.TenantControlPlaneVersion).1) with ⟨s3, r⟩
    refine ⟨content, v, s1, s2, s3, r, rfl, rfl, hcm, hr, hrb,
      upload_of_roleBinding x client s s1 s2 s3 config content v r henc hp hcm hr hrb, ?_⟩
    have ht := upload_of_roleBinding x (traced client) (s, []) _
      (s2, [Call.configMap (configMapObject x (GetKubeletConfigMapName x v true) content) none,
        Call.role
          (roleObject x (configMapRBACName x config.Parameters.TenantControlPlaneVersion).1
            (GetKubeletConfigMapName x v true)) none])
      (s3, [Call.configMap (configMapObject x (GetKubeletConfigMapName x v true) content) none,
        Call.role
          (roleObject x (configMapRBACName x config.Parameters.TenantControlPlaneVersion).1
            (GetKubeletConfigMapName x v true)) none,
        Call.roleBinding
          (roleBindingObject x
            (configMapRBACName x config.Parameters.TenantControlPlaneVersion).1) r])
      config content v r henc hp htcm (by simp [traced, hr]) (by simp [traced, hrb])
    simp only [attempts, ht]

/-- No error equals itself wrapped with a message. -/
theorem withMessage_ne_self (e : GoError) (m : String) : GoError.withMessage e m ≠ e := by
  intro h
  have := congrArg sizeOf h
  simp at this
  omega

/-- Every upsert attempted carries the name derived from the version: a ConfigMap the
ConfigMap name, a Role or RoleBinding the RBAC name. -/
theorem attempts_objectName {σ : Type} (x : Externals) (client : Client σ) (s : σ)
    (config : Configuration) (c : Call) (hc : c ∈ attempts x client s config) :
    (c.kind = .ConfigMap ∧
        c.objectName = (configMapName x config.Parameters.TenantControlPlaneVersion).1) ∨
      (c.kind ≠ .ConfigMap ∧
        c.objectName = (configMapRBACName x config.Parameters.TenantControlPlaneVersion).1) := by
  rcases upload_paths x client s config with
    ⟨_, _, _, _, ha⟩ | ⟨_, _, _, _, _, ha⟩ | ⟨_, v, _, _, _, hp, _, _, ha⟩ |
    ⟨_, v, _, _, _, _, hp, _, _, _, ha⟩ | ⟨_, v, _, _, _, _, _, hp, _, _, _, _, ha⟩ <;>
  rw [ha] at hc <;>
  simp only [List.mem_cons, List.mem_singleton, List.not_mem_nil, or_false] at hc
  · rcases hc with rfl
    simp [Call.kind, Call.objectName, configMapObject, configMapName, hp]
  · rcases hc with rfl | rfl
    · simp [Call.kind, Call.objectName, configMapObject, configMapName, hp]
    · simp [Call.kind, Call.objectName, roleObject]
  · rcases hc with rfl | rfl | rfl
    · simp [Call.kind, Call.objectName, configMapObject, configMapName, hp]
    · simp [Call.kind, Call.objectName, roleObject]
    · simp [Call.kind, Call.objectName, roleBindingObject]

/-! ## The upsert primitives and the requests they send -/

/-- Logging the requests changes neither the state nor the result of a primitive; a
primitive that succeeds ends with a request that succeeded, and one that fails ends with
a failed request whose error it returns wrapped with the context of that request. -/
theorem createOrUpdate_logged {σ α : Type} (isAlreadyExists : GoError → Bool)
    (create update : σ → α → σ × Option GoError) (kind : Kind) (s : σ) (l : List Request)
    (obj : α) :
    (apiclient.createOrUpdate isAlreadyExists (logged kind .Create create)
        (logged kind .Update update) kind (s, l) obj).1.1
        = (apiclient.createOrUpdate isAlreadyExists create update kind s obj).1 ∧
      (apiclient.createOrUpdate isAlreadyExists (logged kind .Create create)
        (logged kind .Update update) kind (s, l) obj).2
        = (apiclient.createOrUpdate isAlreadyExists create update kind s obj).2 ∧
      (((apiclient.createOrUpdate isAlreadyExists (logged kind .Create create)
            (logged kind .Update update) kind (s, l) obj).2 = none ∧
          ∃ pre verb, (apiclient.createOrUpdate isAlreadyExists (logged kind .Create create)
            (logged kind .Update update) kind (s, l) obj).1.2
              = l ++ pre ++ [{ kind := kind, verb := verb, result := none }]) ∨
        ∃ pre verb cause,
          (apiclient.createOrUpdate isAlreadyExists (logged kind .Create create)
            (logged kind .Update update) kind (s, l) obj).2
              = some (.withMessage cause (upsertMessage kind verb)) ∧
          (apiclient.createOrUpdate isAlreadyExists (logged kind .Create create)
            (logged kind .Update update) kind (s, l) obj).1.2
              = l ++ pre ++ [{ kind := kind, verb := verb, result := some cause }]) := by
  rcases hc : create s obj with ⟨s1, _ | e⟩
  · exact ⟨by simp [apiclient.createOrUpdate, logged, hc],
      by simp [apiclient.createOrUpdate, logged, hc],
      Or.inl ⟨by simp [apiclient.createOrUpdate, logged, hc], [], .Create,
        by simp [apiclient.createOrUpdate, logged, hc]⟩⟩
  · by_cases hae : isAlreadyExists e = true
    · rcases hu : update s1 obj with ⟨s2, _ | e'⟩
      · exact ⟨by simp [apiclient.createOrUpdate, logged, hc, hu, hae],
          by simp [apiclient.createOrUpdate, logged, hc, hu, hae],
          Or.inl ⟨by simp [apiclient.createOrUpdate, logged, hc, hu, hae],
            [{ kind := kind, verb := .Create, result := some e }], .Update,
            by simp [apiclient.createOrUpdate, logged, hc, hu, hae]⟩⟩
      · exact ⟨by simp [apiclient.createOrUpdate, logged, hc, hu, hae],
          by simp [apiclient.createOrUpdate, logged, hc, hu, hae],
          Or.inr ⟨[{ kind := kind, verb := .Create, result := some e }], .Update, e',
            by simp [apiclient.createOrUpdate, logged, hc, hu, hae, Wrap],
            by simp [apiclient.createOrUpdate, logged, hc, hu, hae, Wrap]⟩⟩
    · simp only [Bool.not_eq_true] at hae
      exact ⟨by simp [apiclient.createOrUpdate, logged, hc, hae],
        by simp [apiclient.createOrUpdate, logged, hc, hae],
        Or.inr ⟨[], .Create, e, by simp [apiclient.createOrUpdate, logged, hc, hae, Wrap],
          by simp [apiclient.createOrUpdate, logged, hc, hae, Wrap]⟩⟩

/-- Two clients whose operations agree on results and keep their states related return
the same result from `UploadKubeletConfig` and end in related states. -/
theorem upload_simulation {σ τ : Type} (x : Externals) (R : σ → τ → Prop) (c : Client σ)
    (c' : Client τ)
    (hCM : ∀ s t obj, R s t → R (c.CreateOrUpdateConfigMap s obj).1
        (c'.CreateOrUpdateConfigMap t obj).1 ∧
      (c.CreateOrUpdateConfigMap s obj).2 = (c'.CreateOrUpdateConfigMap t obj).2)
    (hRole : ∀ s t obj, R s t → R (c.CreateOrUpdateRole s obj).1
        (c'.CreateOrUpdateRole t obj).1 ∧
      (c.CreateOrUpdateRole s obj).2 = (c'.CreateOrUpdateRole t obj).2)
    (hRB : ∀ s t obj, R s t → R (c.CreateOrUpdateRoleBinding s obj).1
        (c'.CreateOrUpdateRoleBinding t obj).1 ∧
      (c.CreateOrUpdateRoleBinding s obj).2 = (c'.CreateOrUpdateRoleBinding t obj).2)
    (s : σ) (t : τ) (hst : R s t) (config : Configuration) :
    R (UploadKubeletConfig x c s config).1 (UploadKubeletConfig x c' t config).1 ∧
      (UploadKubeletConfig x c s config).2 = (UploadKubeletConfig x c' t config).2 := by
  rcases upload_paths x c s config with
    ⟨_, _, henc, hu, _⟩ | ⟨_, _, henc, hp, hu, _⟩ | ⟨content, v, _, _, henc, hp, hcm, hu, _⟩ |
    ⟨content, v, _, _, _, henc, hp, hcm, hr, hu, _⟩ |
    ⟨content, v, _, _, _, r, henc, hp, hcm, hr, hrb, hu, _⟩
  · rw [hu, upload_of_encode_error x c' t config _ _ henc]
    exact ⟨hst, rfl⟩
  · rw [hu, upload_of_parse_error x c' t config _ _ henc hp]
    exact ⟨hst, rfl⟩
  · have h1 := hCM s t (configMapObject x (GetKubeletConfigMapName x v true) content) hst
    rw [hcm] at h1
    rw [hu, upload_of_configMap_error x c' t _ config content v _ henc hp
      (Prod.ext rfl h1.2.symm)]
    exact ⟨h1.1, rfl⟩
  · have h1 := hCM s t (configMapObject x (GetKubeletConfigMapName x v true) content) hst
    rw [hcm] at h1
    have h2 := hRole _ _ (roleObject x
      (configMapRBACName x config.Parameters.TenantControlPlaneVersion).1
      (GetKubeletConfigMapName x v true)) h1.1
    rw [hr] at h2
    rw [hu, upload_of_role_error x c' t _ _ config content v _ henc hp
      (Prod.ext rfl h1.2.symm) (Prod.ext rfl h2.2.symm)]
    exact ⟨h2.1, rfl⟩
  · have h1 := hCM s t (configMapObject x (GetKubeletConfigMapName x v true) content) hst
    rw [hcm] at h1
    have h2 := hRole _ _ (roleObject x
      (configMapRBACName x config.Parameters.TenantControlPlaneVersion).1
      (GetKubeletConfigMapName x v true)) h1.1
    rw [hr] at h2
    have h3 := hRB _ _ (roleBindingObject x
      (configMapRBACName x config.Parameters.TenantControlPlaneVersion).1) h2.1
    rw [hrb] at h3
    rw [hu, upload_of_roleBinding x c' t _ _ _ config content v r henc hp
      (Prod.ext rfl h1.2.symm) (Prod.ext rfl h2.2.symm) (Prod.ext rfl h3.2.symm)]
    exact ⟨h3.1, rfl⟩

/-- Logging the requests does not change what `UploadKubeletConfig` returns. -/
theorem upload_loggedClientset {σ : Type} (x : Externals) (cs : Clientset σ) (s : σ)
    (config : Configuration) :
    (UploadKubeletConfig x (apiclient.client cs) s config).2
      = (UploadKubeletConfig x (apiclient.client (loggedClientset cs)) (s, []) config).2 := by
  refine (upload_simulation x (fun a b => b.1 = a) (apiclient.client cs)
    (apiclient.client (loggedClientset cs)) ?_ ?_ ?_ s (s, []) rfl config).2
  · rintro a ⟨b, l⟩ obj rfl
    have h := createOrUpdate_logged cs.IsAlreadyExists cs.CreateConfigMap cs.UpdateConfigMap
      .ConfigMap b l obj
    exact ⟨h.1, h.2.1.symm⟩
  · rintro a ⟨b, l⟩ obj rfl
    have h := createOrUpdate_logged cs.IsAlreadyExists cs.CreateRole cs.UpdateRole
      .Role b l obj
    exact ⟨h.1, h.2.1.symm⟩
  · rintro a ⟨b, l⟩ obj rfl
    have h := createOrUpdate_logged cs.IsAlreadyExists cs.CreateRoleBinding
      cs.UpdateRoleBinding .RoleBinding b l obj
    exact ⟨h.1, h.2.1.symm⟩

/-- The last request of a log that ends with `c`. -/
theorem getLast?_append_singleton {α : Type} (l pre : List α) (c : α) :
    (l ++ pre ++ [c]).getLast? = some c := by
  simp

/-- When the last request of a run failed, `UploadKubeletConfig` returns its error
wrapped with the context of the request, and for a Role or RoleBinding wrapped once more
with the RBAC message. -/
theorem upload_of_failed_request {σ : Type} (x : Externals) (cs : Clientset σ) (s : σ)
    (config : Configuration) (kind : Kind) (verb : Verb) (cause : GoError)
    (hlast : (requests x cs s config).getLast?
      = some { kind := kind, verb := verb, result := some cause }) :
    (UploadKubeletConfig x (apiclient.client cs) s config).2
      = some (if kind = Kind.ConfigMap then .withMessage cause (upsertMessage kind verb)
          else .withMessage (.withMessage cause (upsertMessage kind verb)) rbacRulesMessage) := by
  rw [upload_loggedClientset]
  unfold requests at hlast
  rcases upload_paths x (apiclient.client (loggedClientset cs)) (s, []) config with
    ⟨_, _, _, hu, _⟩ | ⟨_, _, _, _, hu, _⟩ | ⟨content, v, ⟨a1, l1⟩, e, _, _, hcm, hu, _⟩ |
    ⟨content, v, ⟨a1, l1⟩, ⟨a2, l2⟩, e, _, _, hcm, hr, hu, _⟩ |
    ⟨content, v, ⟨a1, l1⟩, ⟨a2, l2⟩, ⟨a3, l3⟩, r, _, _, hcm, hr, hrb, hu, _⟩
  · rw [hu] at hlast
    simp at hlast
  · rw [hu] at hlast
    simp at hlast
  · rw [hu] at hlast ⊢
    have h := (createOrUpdate_logged cs.IsAlreadyExists cs.CreateConfigMap cs.UpdateConfigMap
      .ConfigMap s [] (configMapObject x (GetKubeletConfigMapName x v true) content)).2.2
    have hcm' : apiclient.createOrUpdate cs.IsAlreadyExists
        (logged .ConfigMap .Create cs.CreateConfigMap)
        (logged .ConfigMap .Update cs.UpdateConfigMap) .ConfigMap (s, [])
        (configMapObject x (GetKubeletConfigMapName x v true) content) = ((a1, l1), some e) := hcm
    rw [hcm'] at h
    rcases h with ⟨h, _⟩ | ⟨pre, verb', cause', he, hl⟩
    · simp at h
    · simp only at he hl hlast
      rw [hl, getLast?_append_singleton] at hlast
      simp only [Option.some.injEq, Request.mk.injEq] at hlast he
      obtain ⟨rfl, rfl, rfl⟩ := hlast
      simp [he]
  · rw [hu] at hlast ⊢
    have h := (createOrUpdate_logged cs.IsAlreadyExists cs.CreateRole cs.UpdateRole
      .Role a1 l1 (roleObject x
        (configMapRBACName x config.Parameters.TenantControlPlaneVersion).1
        (GetKubeletConfigMapName x v true))).2.2
    have hr' : apiclient.createOrUpdate cs.IsAlreadyExists
        (logged .Role .Create cs.CreateRole) (logged .Role .Update cs.UpdateRole) .Role (a1, l1)
        (roleObject x (configMapRBACName x config.Parameters.TenantControlPlaneVersion).1
          (GetKubeletConfigMapName x v true)) = ((a2, l2), some e) := hr
    rw [hr'] at h
    rcases h with ⟨h, _⟩ | ⟨pre, verb', cause', he, hl⟩
    · simp at h
    · simp only at he hl hlast
      rw [hl, getLast?_append_singleton] at hlast
      simp only [Option.some.injEq, Request.mk.injEq] at hlast he
      obtain ⟨rfl, rfl, rfl⟩ := hlast
      simp [he]
  · rw [hu] at hlast ⊢
    have h := (createOrUpdate_logged cs.IsAlreadyExists cs.CreateRoleBinding
      cs.UpdateRoleBinding .RoleBinding a2 l2 (roleBindingObject x
        (configMapRBACName x config.Parameters.TenantControlPlaneVersion).1)).2.2
    have hrb' : apiclient.createOrUpdate cs.IsAlreadyExists
        (logged .RoleBinding .Create cs.CreateRoleBinding)
        (logged .RoleBinding .Update cs.UpdateRoleBinding) .RoleBinding (a2, l2)
        (roleBindingObject x
          (configMapRBACName x config.Parameters.TenantControlPlaneVersion).1)
        = ((a3, l3), r) := hrb
    rw [hrb'] at h
    rcases h with ⟨_, pre, verb', hl⟩ | ⟨pre, verb', cause', he, hl⟩
    · simp only at hl hlast
      rw [hl, getLast?_append_singleton] at hlast
      simp at hlast
    · simp only at he hl hlast
      rw [hl, getLast?_append_singleton] at hlast
      simp only [Option.some.injEq, Request.mk.injEq] at hlast
      obtain ⟨rfl, rfl, rfl⟩ := hlast
      simp [he, Wrap]

/-- The contexts of two different kinds of object differ. -/
theorem upsertMessage_ne {k₁ k₂ : Kind} (h : k₁ ≠ k₂) (v₁ v₂ : Verb) :
    upsertMessage k₁ v₁ ≠ upsertMessage k₂ v₂ := by
  cases k₁ <;> cases k₂ <;> cases v₁ <;> cases v₂ <;> first | exact absurd rfl h | decide

/-- No error equals itself wrapped with two messages. -/
theorem withMessage_withMessage_ne_self (e : GoError) (m m' : String) :
    GoError.withMessage (GoError.withMessage e m) m' ≠ e := by
  intro h
  have := congrArg sizeOf h
  simp at this
  omega

/-! ## The claims -/

/-- C1: two version strings that `ParseSemantic` accepts with the same major and the same
minor component get the same ConfigMap name from `configMapName` and the same
Role/RoleBinding name from `configMapRBACName`, whatever their patch components are. -/
theorem names_agree_of_same_major_minor (x : Externals) (s₁ s₂ : String) (v₁ v₂ : Version)
    (h₁ : x.ParseSemantic s₁ = .ok v₁) (h₂ : x.ParseSemantic s₂ = .ok v₂)
    (hMajor : v₁.Major = v₂.Major) (hMinor : v₁.Minor = v₂.Minor) :
    configMapName x s₁ = configMapName x s₂ ∧
      configMapRBACName x s₁ = configMapRBACName x s₂ := by
  simp [configMapName, configMapRBACName, GetKubeletConfigMapName, h₁, h₂, hMajor, hMinor]

/-- The versions `1.27.0` and `1.27.9` get the names `kubelet-config-1.27` and
`kubeadm:kubelet-config-1.27`. -/
theorem names_agree_of_same_major_minor_witness :
    configMapName sampleExternals "1.27.0" = ("kubelet-config-1.27", none) ∧
      configMapRBACName sampleExternals "1.27.0" = ("kubeadm:kubelet-config-1.27", none) ∧
      configMapName sampleExternals "1.27.0" = configMapName sampleExternals "1.27.9" ∧
      configMapRBACName sampleExternals "1.27.0" = configMapRBACName sampleExternals "1.27.9" :=
  ⟨by decide, by decide,
    names_agree_of_same_major_minor sampleExternals "1.27.0" "1.27.9"
      { Major := 1, Minor := 27, Patch := 0, PreRelease := "", BuildMetadata := "" }
      { Major := 1, Minor := 27, Patch := 9, PreRelease := "", BuildMetadata := "" }
      rfl rfl rfl rfl⟩

/-- C2: two version strings that `ParseSemantic` accepts and whose (major, minor) pairs
differ get different ConfigMap names and different Role/RoleBinding names, and the upserts
`UploadKubeletConfig` attempts for two configurations carrying them never send two objects
of one kind under one name. -/
theorem names_differ_of_major_minor_ne {σ τ : Type} (x : Externals) (client₁ : Client σ)
    (client₂ : Client τ) (st₁ : σ) (st₂ : τ) (config₁ config₂ : Configuration)
    (s₁ s₂ : String) (v₁ v₂ : Version)
    (hc₁ : config₁.Parameters.TenantControlPlaneVersion = s₁)
    (hc₂ : config₂.Parameters.TenantControlPlaneVersion = s₂)
    (h₁ : x.ParseSemantic s₁ = .ok v₁) (h₂ : x.ParseSemantic s₂ = .ok v₂)
    (hne : (v₁.Major, v₁.Minor) ≠ (v₂.Major, v₂.Minor)) :
    (configMapName x s₁).1 ≠ (configMapName x s₂).1 ∧
      (configMapRBACName x s₁).1 ≠ (configMapRBACName x s₂).1 ∧
      ∀ c₁ ∈ attempts x client₁ st₁ config₁, ∀ c₂ ∈ attempts x client₂ st₂ config₂,
        c₁.kind = c₂.kind → c₁.objectName ≠ c₂.objectName := by
  have hcm : (configMapName x s₁).1 ≠ (configMapName x s₂).1 := by
    simp only [configMapName, h₁, h₂, GetKubeletConfigMapName, if_true]
    intro h
    have := versioned_name_injective _ h
    exact hne (by rw [this.1, this.2])
  have hrb : (configMapRBACName x s₁).1 ≠ (configMapRBACName x s₂).1 := by
    simp only [configMapRBACName, h₁, h₂]
    intro h
    have := versioned_name_injective _ h
    exact hne (by rw [this.1, this.2])
  refine ⟨hcm, hrb, ?_⟩
  intro c₁ hm₁ c₂ hm₂ hk
  subst hc₁ hc₂
  rcases attempts_objectName x client₁ st₁ config₁ c₁ hm₁ with ⟨k₁, n₁⟩ | ⟨k₁, n₁⟩ <;>
  rcases attempts_objectName x client₂ st₂ config₂ c₂ hm₂ with ⟨k₂, n₂⟩ | ⟨k₂, n₂⟩
  · rw [n₁, n₂]; exact hcm
  · exact absurd (hk ▸ k₁) k₂
  · exact absurd (hk ▸ k₂) k₁
  · rw [n₁, n₂]; exact hrb

/-- The versions `1.27.3` and `1.28.2` get different names of each kind. -/
theorem names_differ_of_major_minor_ne_witness :
    (configMapName sampleExternals "1.27.3").1 = "kubelet-config-1.27" ∧
      (configMapName sampleExternals "1.28.2").1 = "kubelet-config-1.28" ∧
      ((configMapName sampleExternals "1.27.3").1 ≠ (configMapName sampleExternals "1.28.2").1 ∧
        (configMapRBACName sampleExternals "1.27.3").1
          ≠ (configMapRBACName sampleExternals "1.28.2").1 ∧
        ∀ c₁ ∈ attempts sampleExternals (stubClient none none none) ()
            { sampleConfiguration with
              Parameters := { sampleConfiguration.Parameters with
                TenantControlPlaneVersion := "1.27.3" } },
          ∀ c₂ ∈ attempts sampleExternals (stubClient none none none) () sampleConfiguration,
            c₁.kind = c₂.kind → c₁.objectName ≠ c₂.objectName) :=
  ⟨by decide, by decide,
    names_differ_of_major_minor_ne sampleExternals (stubClient none none none)
      (stubClient none none none) () () _ sampleConfiguration "1.27.3" "1.28.2"
      { Major := 1, Minor := 27, Patch := 3, PreRelease := "", BuildMetadata := "" }
      { Major := 1, Minor := 28, Patch := 2, PreRelease := "", BuildMetadata := "" }
      rfl rfl rfl rfl (by decide)⟩

/-- C3: for a string that `ParseSemantic` rejects, `configMapName` and `configMapRBACName`
each return the parser's error together with the empty string as the name. -/
theorem names_fail_of_parse_error (x : Externals) (s : String) (e : GoError)
    (h : x.ParseSemantic s = .error e) :
    configMapName x s = ("", some e) ∧ configMapRBACName x s = ("", some e) := by
  simp [configMapName, configMapRBACName, h]

/-- The strings `latest`, the empty string and `v1.x` are rejected and yield no name. -/
theorem names_fail_of_parse_error_witness :
    (configMapName sampleExternals "latest"
          = ("", some (.leaf "could not parse \"latest\" as version")) ∧
        configMapRBACName sampleExternals "latest"
          = ("", some (.leaf "could not parse \"latest\" as version"))) ∧
      (configMapName sampleExternals ""
          = ("", some (.leaf "could not parse \"\" as version")) ∧
        configMapRBACName sampleExternals ""
          = ("", some (.leaf "could not parse \"\" as version"))) ∧
      (configMapName sampleExternals "v1.x"
          = ("", some (.leaf "could not parse \"v1.x\" as version")) ∧
        configMapRBACName sampleExternals "v1.x"
          = ("", some (.leaf "could not parse \"v1.x\" as version"))) :=
  ⟨names_fail_of_parse_error sampleExternals "latest" _ rfl,
    names_fail_of_parse_error sampleExternals "" _ rfl,
    names_fail_of_parse_error sampleExternals "v1.x" _ rfl⟩

/-- C4: the upserts `UploadKubeletConfig` attempts are, in order, a prefix of ConfigMap,
Role, RoleBinding; every upsert before the last one attempted succeeded, so the sequence
stops at the first failure (a failed ConfigMap upsert is the only call, a failed Role
upsert is followed by no RoleBinding upsert); a failed upsert makes `UploadKubeletConfig`
return a non-nil error; and a sequence without a failure that was started runs to the
RoleBinding. -/
theorem upserts_stop_at_first_failure {σ : Type} (x : Externals) (client : Client σ) (s : σ)
    (config : Configuration) :
    (attempts x client s config).map Call.kind <+: [Kind.ConfigMap, Kind.Role, Kind.RoleBinding] ∧
      (∀ c ∈ (attempts x client s config).dropLast, c.result = none) ∧
      (∀ obj e, Call.configMap obj (some e) ∈ attempts x client s config →
        (attempts x client s config).map Call.kind = [Kind.ConfigMap]) ∧
      (∀ obj e, Call.role obj (some e) ∈ attempts x client s config →
        (attempts x client s config).map Call.kind = [Kind.ConfigMap, Kind.Role]) ∧
      (∀ c ∈ attempts x client s config, c.result ≠ none →
        (UploadKubeletConfig x client s config).2 ≠ none) ∧
      (attempts x client s config ≠ [] → (∀ c ∈ attempts x client s config, c.result = none) →
        (attempts x client s config).map Call.kind
          = [Kind.ConfigMap, Kind.Role, Kind.RoleBinding]) := by
  rcases upload_paths x client s config with
    ⟨_, _, _, hu, ha⟩ | ⟨_, _, _, _, hu, ha⟩ | ⟨_, _, _, _, _, _, _, hu, ha⟩ |
    ⟨_, _, _, _, _, _, _, _, _, hu, ha⟩ | ⟨_, _, _, _, _, r, _, _, _, _, _, hu, ha⟩ <;>
  rw [ha, hu]
  · simp
  · simp
  · simp [Call.kind, Call.result, List.IsPrefix]
  · simp [Call.kind, Call.result, List.IsPrefix]
  · cases r <;> simp [Call.kind, Call.result, Wrap]

/-- C5: when an upsert step fails, that is when the last request a run sends fails with
some cause, the error `UploadKubeletConfig` returns wraps that cause with the context of
the step: for the ConfigMap step it is the cause wrapped with the ConfigMap context, not
the bare cause; for the Role and RoleBinding steps it is the cause wrapped with the
context of the step and then with the RBAC message; the innermost cause of the returned
error is that of the failure; and the same cause failing at two different steps gives two
different errors. -/
theorem failure_wrapped_with_step {σ τ : Type} (x : Externals) (cs₁ : Clientset σ)
    (cs₂ : Clientset τ) (s₁ : σ) (s₂ : τ) (config₁ config₂ : Configuration)
    (kind₁ kind₂ : Kind) (verb₁ verb₂ : Verb) (cause : GoError)
    (h₁ : (requests x cs₁ s₁ config₁).getLast?
      = some { kind := kind₁, verb := verb₁, result := some cause })
    (h₂ : (requests x cs₂ s₂ config₂).getLast?
      = some { kind := kind₂, verb := verb₂, result := some cause }) :
    (kind₁ = Kind.ConfigMap →
        (UploadKubeletConfig x (apiclient.client cs₁) s₁ config₁).2
          = some (.withMessage cause (upsertMessage Kind.ConfigMap verb₁))) ∧
      (kind₁ ≠ Kind.ConfigMap →
        (UploadKubeletConfig x (apiclient.client cs₁) s₁ config₁).2
          = some (.withMessage (.withMessage cause (upsertMessage kind₁ verb₁))
              rbacRulesMessage)) ∧
      (UploadKubeletConfig x (apiclient.client cs₁) s₁ config₁).2 ≠ some cause ∧
      (∃ e, (UploadKubeletConfig x (apiclient.client cs₁) s₁ config₁).2 = some e ∧
        e.Cause = cause.Cause) ∧
      (kind₁ ≠ kind₂ →
        (UploadKubeletConfig x (apiclient.client cs₁) s₁ config₁).2
          ≠ (UploadKubeletConfig x (apiclient.client cs₂) s₂ config₂).2) := by
  have r₁ := upload_of_failed_request x cs₁ s₁ config₁ kind₁ verb₁ cause h₁
  have r₂ := upload_of_failed_request x cs₂ s₂ config₂ kind₂ verb₂ cause h₂
  refine ⟨?_, ?_, ?_, ?_, ?_⟩
  · intro hk
    rw [r₁, hk]
    simp
  · intro hk
    rw [r₁]
    simp [hk]
  · rw [r₁]
    by_cases hk : kind₁ = Kind.ConfigMap
    · simpa [hk] using withMessage_ne_self cause _
    · simpa [hk] using withMessage_withMessage_ne_self cause _ _
  · rw [r₁]
    by_cases hk : kind₁ = Kind.ConfigMap <;> simp [hk, GoError.Cause]
  · intro hne
    rw [r₁, r₂]
    by_cases hk₁ : kind₁ = Kind.ConfigMap <;> by_cases hk₂ : kind₂ = Kind.ConfigMap
    · exact absurd (hk₁.trans hk₂.symm) hne
    · simp only [hk₁, hk₂, if_true, if_false, ne_eq, Option.some.injEq, GoError.withMessage.injEq,
        not_and]
      intro h
      exact absurd h.symm (withMessage_ne_self cause _)
    · simp only [hk₁, hk₂, if_true, if_false, ne_eq, Option.some.injEq, GoError.withMessage.injEq,
        not_and]
      intro h
      exact absurd h (withMessage_ne_self cause _)
    · simp only [hk₁, hk₂, if_false, ne_eq, Option.some.injEq, GoError.withMessage.injEq,
        true_and, and_true]
      exact upsertMessage_ne hne verb₁ verb₂

/-- A request timing out when the Role is created, and the same when the RoleBinding is
created: each is returned wrapped with its own context, and the two errors differ; timing
out when the ConfigMap is created is returned wrapped with the ConfigMap context. -/
theorem failure_wrapped_with_step_witness :
    (requests sampleExternals (stubClientset Kind.Role requestTimedOut) ()
        sampleConfiguration).map (fun r => (r.kind, r.verb))
        = [(Kind.ConfigMap, Verb.Create), (Kind.Role, Verb.Create)] ∧
      (UploadKubeletConfig sampleExternals
          (apiclient.client (stubClientset Kind.Role requestTimedOut)) ()
          sampleConfiguration).2
        = some (.withMessage (.withMessage requestTimedOut "unable to create RBAC role")
            "error creating kubelet configuration configmap RBAC rules") ∧
      (UploadKubeletConfig sampleExternals
          (apiclient.client (stubClientset Kind.Role requestTimedOut)) ()
          sampleConfiguration).2
        ≠ (UploadKubeletConfig sampleExternals
          (apiclient.client (stubClientset Kind.RoleBinding requestTimedOut)) ()
          sampleConfiguration).2 ∧
      (UploadKubeletConfig sampleExternals
          (apiclient.client (stubClientset Kind.ConfigMap requestTimedOut)) ()
          sampleConfiguration).2.map GoError.Error
        = some "unable to create ConfigMap: etcdserver: request timed out" :=
  have h := failure_wrapped_with_step sampleExternals (stubClientset Kind.Role requestTimedOut)
    (stubClientset Kind.RoleBinding requestTimedOut) () () sampleConfiguration
    sampleConfiguration Kind.Role Kind.RoleBinding Verb.Create Verb.Create requestTimedOut
    (by decide) (by decide)
  ⟨by decide, h.2.1 (by decide), h.2.2.2.2 (by decide), by decide⟩

/-- C6: for a configuration whose version does not parse (the document having been
serialised, which comes first), `UploadKubeletConfig` returns exactly the parser's error,
which is not that error wrapped with the RBAC message, leaves the state as it was and
attempts no upsert: no primitive is called and no request is sent. -/
theorem parse_error_returned_unchanged {σ : Type} (x : Externals) (client : Client σ)
    (s : σ) (config : Configuration) (e : GoError)
    (henc : (getKubeletConfigmapContent x (tenantKubeletConfiguration config)).2 = none)
    (hp : x.ParseSemantic config.Parameters.TenantControlPlaneVersion = .error e) :
    UploadKubeletConfig x client s config = (s, some e) ∧
      some e ≠ Wrap (some e) rbacRulesMessage ∧
      attempts x client s config = [] ∧
      ∀ (τ : Type) (cs : Clientset τ) (t : τ), requests x cs t config = [] := by
  have henc' : getKubeletConfigmapContent x (tenantKubeletConfiguration config)
      = ((getKubeletConfigmapContent x (tenantKubeletConfiguration config)).1, none) :=
    Prod.ext rfl henc
  refine ⟨upload_of_parse_error x client s config _ e henc' hp, ?_, ?_, ?_⟩
  · simpa [Wrap] using (withMessage_ne_self e rbacRulesMessage).symm
  · simp only [attempts, upload_of_parse_error x (traced client) (s, []) config _ e henc' hp]
  · intro τ cs t
    simp only [requests, upload_of_parse_error x (apiclient.client (loggedClientset cs)) (t, [])
      config _ e henc' hp]

/-- The version `latest` does not parse: its error is returned and nothing is upserted. -/
theorem parse_error_returned_unchanged_witness :
    UploadKubeletConfig sampleExternals (stubClient none none none) () unparsableConfiguration
        = ((), some (.leaf "could not parse \"latest\" as version")) ∧
      attempts sampleExternals (stubClient none none none) () unparsableConfiguration = [] :=
  have h := parse_error_returned_unchanged sampleExternals (stubClient none none none) ()
    unparsableConfiguration (.leaf "could not parse \"latest\" as version") rfl rfl
  ⟨h.1, h.2.2.1⟩

/-- C7: for a configuration whose version parses, every Role that `UploadKubeletConfig`
upserts comes after a successful upsert of a ConfigMap in the same run and has exactly one
rule, with verbs `get`, resources `configmaps` and, as its only resource name, the name of
that ConfigMap, which is the name `configMapName` derives; and the Role is upserted
whenever the document serialises and the ConfigMap upsert succeeds. -/
theorem role_grants_get_on_configMap {σ : Type} (x : Externals) (client : Client σ) (s : σ)
    (config : Configuration) (v : Version)
    (hp : x.ParseSemantic config.Parameters.TenantControlPlaneVersion = .ok v) :
    (∀ role r, Call.role role r ∈ attempts x client s config →
        ∃ cm, (attempts x client s config).head? = some (Call.configMap cm none) ∧
          cm.ObjectMeta.Name = (configMapName x config.Parameters.TenantControlPlaneVersion).1 ∧
          role.Rules =
            [{ Verbs := ["get"]
               APIGroups := [""]
               Resources := ["configmaps"]
               ResourceNames := [cm.ObjectMeta.Name] }]) ∧
      (∀ content s1,
        getKubeletConfigmapContent x (tenantKubeletConfiguration config) = (content, none) →
        client.CreateOrUpdateConfigMap s
          (configMapObject x (GetKubeletConfigMapName x v true) content) = (s1, none) →
        ∃ role r, Call.role role r ∈ attempts x client s config) := by
  rcases upload_paths x client s config with
    ⟨_, _, henc, _, ha⟩ | ⟨_, _, _, hp', _, ha⟩ | ⟨_, v', _, _, henc, hp', hcm, _, ha⟩ |
    ⟨_, v', _, _, _, henc, hp', _, _, _, ha⟩ | ⟨_, v', _, _, _, _, henc, hp', _, _, _, _, ha⟩
  · rw [ha]
    refine ⟨by simp, ?_⟩
    intro content s1 h
    rw [henc] at h
    simp at h
  · rw [hp] at hp'; cases hp'
  · rw [hp] at hp'
    cases hp'
    rw [ha]
    refine ⟨by simp, ?_⟩
    intro content s1 h hcm'
    rw [henc] at h
    cases h
    rw [hcm] at hcm'
    simp at hcm'
  · rw [hp] at hp'
    cases hp'
    rw [ha]
    refine ⟨?_, fun _ _ _ _ => ⟨_, _, List.mem_cons_of_mem _ (List.mem_cons_self _ _)⟩⟩
    intro role r hmem
    simp only [List.mem_cons, List.mem_singleton, reduceCtorEq, Call.role.injEq, false_or,
      List.not_mem_nil, or_false] at hmem
    obtain ⟨rfl, _⟩ := hmem
    exact ⟨_, rfl, by simp [configMapObject, configMapName, hp], by simp [roleObject, configMapObject]⟩
  · rw [hp] at hp'
    cases hp'
    rw [ha]
    refine ⟨?_, fun _ _ _ _ => ⟨_, _, List.mem_cons_of_mem _ (List.mem_cons_self _ _)⟩⟩
    intro role r hmem
    simp only [List.mem_cons, List.mem_singleton, reduceCtorEq, Call.role.injEq, false_or,
      List.not_mem_nil, or_false] at hmem
    obtain ⟨rfl, _⟩ := hmem
    exact ⟨_, rfl, by simp [configMapObject, configMapName, hp], by simp [roleObject, configMapObject]⟩

/-- For version `1.28.2` the Role grants `get` on `kubelet-config-1.28`, the ConfigMap
upserted just before it. -/
theorem role_grants_get_on_configMap_witness :
    (attempts sampleExternals (stubClient none none none) () sampleConfiguration).map
        Call.objectName
        = ["kubelet-config-1.28", "kubeadm:kubelet-config-1.28", "kubeadm:kubelet-config-1.28"] ∧
      ∃ role r, Call.role role r ∈
          attempts sampleExternals (stubClient none none none) () sampleConfiguration ∧
        role.Rules =
          [{ Verbs := ["get"]
             APIGroups := [""]
             Resources := ["configmaps"]
             ResourceNames := ["kubelet-config-1.28"] }] :=
  have h := role_grants_get_on_configMap sampleExternals (stubClient none none none) ()
    sampleConfiguration
    { Major := 1, Minor := 28, Patch := 2, PreRelease := "", BuildMetadata := "" } rfl
  ⟨by decide,
    (h.2 _ () rfl rfl).elim fun role hr => hr.elim fun r hmem =>
      ⟨role, r, hmem, (h.1 role r hmem).elim fun cm hcm => by
        have hhead := hcm.1
        have hname : cm.ObjectMeta.Name = "kubelet-config-1.28" := by
          rw [hcm.2.1]; decide
        rw [hcm.2.2, hname]⟩⟩

/-- C8: the document `getKubeletConfigmapContent` builds (and hands to the serialiser)
has `ClusterDomain`, `ClusterDNS` and `CgroupDriver` equal to the input's domain, DNS
service IP list and cgroup driver, and two documents differ in nothing else: overwriting
these three fields of the document of one input with those of another input gives the
document of the other input. -/
theorem document_tenant_fields (x : Externals) (k k' : KubeletConfiguration) :
    getKubeletConfigmapContent x k = x.EncondeToYaml (kubeletConfigDocument x k) ∧
      (kubeletConfigDocument x k).ClusterDomain = k.TenantControlPlaneDomain ∧
      (kubeletConfigDocument x k).ClusterDNS = k.TenantControlPlaneDNSServiceIPs ∧
      (kubeletConfigDocument x k).CgroupDriver = k.TenantControlPlaneCgroupDriver ∧
      { kubeletConfigDocument x k with
          ClusterDomain := (kubeletConfigDocument x k').ClusterDomain
          ClusterDNS := (kubeletConfigDocument x k').ClusterDNS
          CgroupDriver := (kubeletConfigDocument x k').CgroupDriver }
        = kubeletConfigDocument x k' :=
  ⟨rfl, rfl, rfl, rfl, rfl⟩

/-- The end-to-end scenario: the document built for `cluster.local`, `10.96.0.10` and
`systemd`. -/
theorem document_of_sample :
    (kubeletConfigDocument sampleExternals (tenantKubeletConfiguration sampleConfiguration)).ClusterDomain
        = "cluster.local" ∧
      (kubeletConfigDocument sampleExternals (tenantKubeletConfiguration sampleConfiguration)).ClusterDNS
        = ["10.96.0.10"] ∧
      (kubeletConfigDocument sampleExternals (tenantKubeletConfiguration sampleConfiguration)).CgroupDriver
        = "systemd" ∧
      (kubeletConfigDocument sampleExternals
          (tenantKubeletConfiguration sampleConfiguration)).Authentication.Anonymous.Enabled
        = some false := by
  decide

/-- C9: the document `getKubeletConfigmapContent` builds has
`authentication.anonymous.enabled` set, and set to false, for every input. -/
theorem document_anonymous_disabled (x : Externals) (k : KubeletConfiguration) :
    (kubeletConfigDocument x k).Authentication.Anonymous.Enabled = some false ∧
      getKubeletConfigmapContent x k = x.EncondeToYaml (kubeletConfigDocument x k) :=
  ⟨rfl, rfl⟩

/-- Storing a value twice under a key is storing it once. -/
theorem put_put {α : Type} (m : String → String → Option α) (ns name : String) (v : α) :
    put (put m ns name v) ns name v = put m ns name v := by
  funext ns' name'
  simp only [put]
  split_ifs <;> rfl

/-- A run on the empty cluster stores the three objects under the names of version
`1.28`. -/
theorem upload_populates_cluster :
    (UploadKubeletConfig sampleExternals replaceClient Cluster.empty sampleConfiguration).2
        = none ∧
      ((UploadKubeletConfig sampleExternals replaceClient Cluster.empty
          sampleConfiguration).1.configMaps "kube-system" "kubelet-config-1.28").map
          (fun cm => cm.Data.map Prod.fst) = some ["kubelet"] ∧
      (UploadKubeletConfig sampleExternals replaceClient Cluster.empty
          sampleConfiguration).1.roles "kube-system" "kubeadm:kubelet-config-1.28"
        = some (roleObject sampleExternals "kubeadm:kubelet-config-1.28" "kubelet-config-1.28") ∧
      (UploadKubeletConfig sampleExternals replaceClient Cluster.empty
          sampleConfiguration).1.roleBindings "kube-system" "kubeadm:kubelet-config-1.28"
        = some (roleBindingObject sampleExternals "kubeadm:kubelet-config-1.28") := by
  decide

/-- C10: with every upsert a full replace that succeeds, running `UploadKubeletConfig`
again with the same configuration returns the same result and leaves the cluster in the
state the first run left it in, for every initial state. -/
theorem upload_idempotent (x : Externals) (st : Cluster) (config : Configuration) :
    UploadKubeletConfig x replaceClient
        (UploadKubeletConfig x replaceClient st config).1 config
      = UploadKubeletConfig x replaceClient st config := by
  rcases upload_paths x replaceClient st config with
    ⟨_, _, henc, hu, _⟩ | ⟨_, _, henc, hp, hu, _⟩ | ⟨_, _, _, _, _, _, hcm, _⟩ |
    ⟨_, _, _, _, _, _, _, _, hr, _⟩ | ⟨content, v, s1, s2, s3, r, henc, hp, hcm, hr, hrb, hu, _⟩
  · rw [hu]
    exact upload_of_encode_error x replaceClient st config _ _ henc
  · rw [hu]
    exact upload_of_parse_error x replaceClient st config _ _ henc hp
  · simp [replaceClient] at hcm
  · simp [replaceClient] at hr
  · rw [hu]
    simp only [replaceClient, Prod.mk.injEq] at hcm hr hrb
    obtain ⟨hs1, -⟩ := hcm
    obtain ⟨hs2, -⟩ := hr
    obtain ⟨hs3, hr3⟩ := hrb
    subst hs1 hs2 hs3 hr3
    rw [upload_of_roleBinding x replaceClient _ _ _ _ config content v none henc hp rfl rfl rfl]
    simp [replaceClient, put_put]

end kubeadm
